import Mathlib

/-!
Shallow embedding of the lookup/decoding core of `tfutils.py`
(class `TracabTf05Xml`): the XML attribute-tree model, the match-metadata
parser, team/player resolution, heatmap-kind selection and the
digit-string-to-grid heatmap decoder.  Plotting (mplsoccer/matplotlib)
is presentation and is not modelled; every function below is modelled up
to the point where the decoded data leaves the core.
-/

namespace Tfutils

/-- Python runtime errors that the modelled code can raise.
`valueError` carries the message (the source raises `ValueError` with a
message both for invalid selectors/kinds and, via `int()` and numpy
`reshape`, for malformed heatmap strings); `typeError` models `TypeError`
(e.g. iterating or converting `None`); `attributeError` models
`AttributeError` (calling a method on `None`). -/
inductive PyError where
  | valueError (msg : String)
  | typeError
  | attributeError
deriving DecidableEq

/-- An XML element as used by `xml.etree.ElementTree`: a tag, an
attribute dictionary (modelled as an association list with unique keys
in practice) and a list of child elements in document order. -/
inductive Elem where
  | mk (tag : String) (attrs : List (String × String)) (children : List Elem)

/-- The element's tag. -/
def Elem.tag : Elem → String
  | .mk t _ _ => t

/-- The element's attribute list. -/
def Elem.attrs : Elem → List (String × String)
  | .mk _ a _ => a

/-- The element's children, in document order. -/
def Elem.children : Elem → List Elem
  | .mk _ _ c => c

/-- Models `Element.get(key)`: the value of attribute `key`, or `None`
when absent. -/
def Elem.get (e : Elem) (key : String) : Option String :=
  (e.attrs.find? (fun p => p.fst == key)).map Prod.snd

/-- Models `Element.find(tag)` for a plain tag path: the first direct
child with the given tag, or `None`. -/
def Elem.find (e : Elem) (t : String) : Option Elem :=
  e.children.find? (fun c => c.tag == t)

/-- Models `Element.find("TAG/[@key='val']")`: the first direct child
with tag `t` whose attribute `key` equals `val`, or `None`. -/
def Elem.findByAttr (e : Elem) (t key val : String) : Option Elem :=
  e.children.find? (fun c => c.tag == t && c.get key == some val)

/-- The code point of the DIGIT ZERO of every run of ten consecutive
Unicode decimal digits (general category Nd).  The Unicode data
guarantee that the Nd digits of each script form a contiguous run of
ten code points valued 0 to 9, so the whole category is described by
the code points of its zeros.  This is the complete table of the 66 Nd
runs of Unicode 14.0, the version bundled with CPython 3.11; the ASCII
digits 0 to 9 are the run starting at 48. -/
def ndZeroPoints : List Nat :=
  [48, 1632, 1776, 1984, 2406, 2534, 2662, 2790, 2918, 3046, 3174, 3302,
   3430, 3558, 3664, 3792, 3872, 4160, 4240, 6112, 6160, 6470, 6608, 6784,
   6800, 6992, 7088, 7232, 7248, 42528, 43216, 43264, 43472, 43504, 43600,
   44016, 65296, 66720, 68912, 69734, 69872, 69942, 70096, 70384, 70736,
   70864, 71248, 71360, 71472, 71904, 72016, 72784, 73040, 73120, 92768,
   92864, 93008, 120782, 120792, 120802, 120812, 120822, 123200, 123632,
   125264, 130032]

/-- Models the Python builtin `int()` applied to a one-character string,
as done by `[int(c) for c in hm_string]` in `__make_heatmap_array`:
`int()` accepts every Unicode decimal digit (category Nd, the complete
`ndZeroPoints` table), mapping it to its digit value 0 to 9, and raises
`ValueError` on every other character. -/
def pyIntOfChar (c : Char) : Option Nat :=
  (ndZeroPoints.find? (fun z => decide (z ≤ c.toNat) && decide (c.toNat ≤ z + 9))).map
    (fun z => c.toNat - z)

/-- Message of the `ValueError` raised by `int()` on a non-digit
character (the source message also quotes the offending character; the
quotation is elided so the message does not depend on which bad
character is hit first). -/
def intConvMsg : String := "invalid literal for int with base 10"

/-- Message of the `ValueError` raised by numpy `reshape` when the
flat array does not have 14*20 elements. -/
def reshapeMsg : String := "cannot reshape array into shape (14,20)"

/-- Models the list comprehension `[int(c) for c in hm_string]`:
converts every character, raising `ValueError` as soon as a character is
not a decimal digit. -/
def int_list : List Char → Except PyError (List Nat)
  | [] => Except.ok []
  | c :: cs =>
    match pyIntOfChar c with
    | some n =>
      match int_list cs with
      | Except.ok ns => Except.ok (n :: ns)
      | Except.error e => Except.error e
    | none => Except.error (PyError.valueError intConvMsg)

/-- Models numpy `reshape(rows, cols)` on a flat list in C (row-major)
order: the first `cols` entries form row 0, the next `cols` entries row
1, and so on.  Only used under the guard `vals.length = rows * cols`,
exactly as `reshape` requires. -/
def reshapeRows : Nat → Nat → List Nat → List (List Nat)
  | 0, _, _ => []
  | r + 1, cols, vals => vals.take cols :: reshapeRows r cols (vals.drop cols)

/-- Models `TracabTf05Xml.__make_heatmap_array`: builds
`np.array([int(c) for c in hm_string]).reshape(14, 20)` (the instance
constants `__HM_WIDTH = 14` and `__HM_LENGTH = 20`), propagating the
`ValueError` of `int()` on a non-digit character and of `reshape` when
the string length is not 280. -/
def make_heatmap_array (s : String) : Except PyError (List (List Nat)) :=
  match int_list s.data with
  | Except.error e => Except.error e
  | Except.ok vals =>
    if vals.length = 14 * 20 then Except.ok (reshapeRows 14 20 vals)
    else Except.error (PyError.valueError reshapeMsg)

/-- The state of a `TracabTf05Xml` instance after a successful call to
`parse()`: the parsed element tree (`root`, with the document children
directly below it, as searched by `self.find(...)`) together with the
metadata fields that `parse()` assigns from the attributes of the
`TracabDocument` element.  All fields other than `match_duration` are
taken verbatim from `Element.get` and are therefore `Option String`
(`None` when the attribute is absent); `match_duration` is
`float(iTotalGameTime) / 60000` and is modelled as a rational. -/
structure TracabTf05Xml where
  root : Elem
  match_id : Option String
  home_team_name : Option String
  home_team_id : Option String
  away_team_name : Option String
  away_team_id : Option String
  match_duration : Rat
  arena_name : Option String
  arena_id : Option String
  competition_name : Option String
  competition_id : Option String
  match_date : Option String
  season : Option String
  season_id : Option String
  sport_id : Option String
  sport_name : Option String

/-- Interprets a list of characters as a decimal numeral (all characters
must be ASCII digits, and at least one is required). -/
def digitsToNat (l : List Char) : Option Nat :=
  if l ≠ [] ∧ ∀ c ∈ l, 48 ≤ c.toNat ∧ c.toNat ≤ 57 then
    some (l.foldl (fun acc c => 10 * acc + (c.toNat - 48)) 0)
  else none

/-- Models the Python builtin `float()` on a string, restricted to plain
optional-sign integer literals: the TF05 format stores integer
millisecond counts, so fractions, exponents, whitespace padding and the
inf/nan spellings are not modelled.  An unparseable string raises
`ValueError`. -/
def pyFloatParse (s : String) : Option Rat :=
  match s.data with
  | '-' :: rest => (digitsToNat rest).map (fun n => -(n : Rat))
  | '+' :: rest => (digitsToNat rest).map (fun n => (n : Rat))
  | l => (digitsToNat l).map (fun n => (n : Rat))

/-- Models `float(x)` where `x` came from `Element.get`: `float(None)`
raises `TypeError`; an unparseable string raises `ValueError`. -/
def pyFloat : Option String → Except PyError Rat
  | none => Except.error PyError.typeError
  | some s =>
    match pyFloatParse s with
    | some q => Except.ok q
    | none => Except.error (PyError.valueError "could not convert string to float")

/-- Models `TracabTf05Xml.parse()` after the file has been read: takes
the parsed root element (file I/O and XML well-formedness are the
concern of `ElementTree.parse` and are not modelled) and assigns the
metadata fields from the attributes of the `TracabDocument` child.  If
that child is absent, `match_info.get(...)` is an attribute access on
`None` and raises `AttributeError`.  Only `iTotalGameTime` passes
through `float(...)`, so only that attribute being absent or
unparseable raises; every other absent attribute silently yields `None`.
The Python method mutates `self` field by field; the model returns the
final state, or the first error, which is equivalent for the reader of
the returned state. -/
def parse (root : Elem) : Except PyError TracabTf05Xml :=
  match root.find "TracabDocument" with
  | none => Except.error PyError.attributeError
  | some mi =>
    match pyFloat (mi.get "iTotalGameTime") with
    | Except.error e => Except.error e
    | Except.ok t =>
      Except.ok
        { root := root
          match_id := mi.get "iMatchId"
          home_team_name := mi.get "sHomeTeamName"
          home_team_id := mi.get "iHomeTeamId"
          away_team_name := mi.get "sAwayTeamName"
          away_team_id := mi.get "iAwayTeamId"
          match_duration := t / 60000
          arena_name := mi.get "sArenaName"
          arena_id := mi.get "iArenaId"
          competition_name := mi.get "sCompetitionName"
          competition_id := mi.get "iCompetitionId"
          match_date := mi.get "dtDate"
          season := mi.get "sSeason"
          season_id := mi.get "iSeasonId"
          sport_id := mi.get "iSportId"
          sport_name := mi.get "sSportName" }

/-- Models the instance dictionary `__team_dict` mapping the role tags
to the element tags; only ever applied to `home` or `away`. -/
def team_dict (t : String) : String :=
  if t = "home" then "HomeTeam" else "AwayTeam"

/-- Message of the `ValueError` raised by `get_team` on an unknown
selector (the quotation marks of the source message are elided). -/
def invalidTeamMsg : String :=
  "Invalid team argument: must be home, away, or the exact team name. Check your spelling"

/-- Models `TracabTf05Xml.get_team`: the role tags are matched first,
then the exact home team name, then the exact away team name; any other
selector raises `ValueError`.  The comparisons against the team names
compare a string with the possibly-`None` parsed name, which is how the
Python `==` behaves (`None` never equals a string).  `self.find` may
return `None` when the team element is absent, which the method passes
through without error. -/
def get_team (st : TracabTf05Xml) (team : String) : Except PyError (Option Elem) :=
  if team = "home" ∨ team = "away" then
    Except.ok (st.root.find (team_dict team))
  else if some team = st.home_team_name then
    Except.ok (st.root.find "HomeTeam")
  else if some team = st.away_team_name then
    Except.ok (st.root.find "AwayTeam")
  else
    Except.error (PyError.valueError invalidTeamMsg)

/-- Message of the `ValueError` raised by `get_player` when no lookup
matched. -/
def playerNotFoundMsg : String :=
  "Player node not found. Check the player ID or player name you provided. Player names must be spelled exactly as they are in the document."

/-- Models `TracabTf05Xml.get_player` (the argument is the selector
after the coercion `player = str(player)`).  The method fetches the
`HomeTeam` and `AwayTeam` children with plain finds (no error), then
tries, in order: id match in the home team, id match in the away team,
name match in the home team, name match in the away team, and pairs the
first hit with the owning team name read next to it.  An absent
`HomeTeam` element makes the very first lookup an attribute access on
`None` (`AttributeError`, line 538); an absent `AwayTeam` element only
raises when the home-team id lookup missed, because `away_team` is
dereferenced only inside that branch (lines 542-543), so a home-id hit
still resolves on a document without an `AwayTeam` element.  On the
final fallback the source reads the attribute `sTamName` (a typo for
`sTeamName`), which is preserved here verbatim. -/
def get_player (st : TracabTf05Xml) (player : String) :
    Except PyError (Elem × Option String) :=
  match st.root.find "HomeTeam" with
  | none => Except.error PyError.attributeError
  | some home_team =>
    match home_team.findByAttr "Player" "iPlayerId" player with
    | some p => Except.ok (p, home_team.get "sTeamName")
    | none =>
      match st.root.find "AwayTeam" with
      | none => Except.error PyError.attributeError
      | some away_team =>
        let step1 : Option Elem × Option String :=
          (away_team.findByAttr "Player" "iPlayerId" player, away_team.get "sTeamName")
        let step2 : Option Elem × Option String :=
          match step1.fst with
          | some p => (some p, step1.snd)
          | none =>
            match home_team.findByAttr "Player" "sPlayerName" player with
            | some p => (some p, home_team.get "sTeamName")
            | none =>
              (away_team.findByAttr "Player" "sPlayerName" player, away_team.get "sTamName")
        match step2.fst with
        | some p => Except.ok (p, step2.snd)
        | none => Except.error (PyError.valueError playerNotFoundMsg)

/-- Keys of `__team_heatmap_dict`, in insertion order. -/
def team_heatmap_keys : List String := ["overall", "defence", "midfield", "attack"]

/-- Models the instance dictionary `__team_heatmap_dict`; only ever
applied to one of its keys. -/
def team_heatmap_dict (k : String) : String :=
  if k = "overall" then "sHeatmap"
  else if k = "defence" then "sDefenceHeatmap"
  else if k = "midfield" then "sMidfieldHeatmap"
  else "sAttackHeatmap"

/-- Keys of `__possession_heatmap_dict`, in insertion order. -/
def possession_heatmap_keys : List String := ["overall", "first-half", "second-half"]

/-- Models the instance dictionary `__possession_heatmap_dict`; only
ever applied to one of its keys. -/
def possession_heatmap_dict (k : String) : String :=
  if k = "overall" then "sHeatmap"
  else if k = "first-half" then "sFirstHalfHeatmap"
  else "sSecondHalfHeatmap"

/-- The message of the `ValueError` raised on an invalid heatmap kind:
`"Invalid heatmap type: must be one of ({}), but provided {}".format(valid_heatmaps, hm_type)`
where `valid_heatmaps` joins the dictionary keys with a comma. -/
def invalidKindMsg (valid k : String) : String :=
  "Invalid heatmap type: must be one of (" ++ valid ++ "), but provided " ++ k

/-- The message of the `ValueError` raised on an invalid possession
qualifier (quotation marks of the source message elided; the source also
misspells Invalid as Inavlid, preserved here). -/
def invalidPossessionMsg (p : String) : String :=
  "Inavlid possession type: must be one of (in, out), but provided " ++ p

/-- Models `TracabTf05Xml.team_heatmap` up to the decoded heatmap array
(the subsequent mplsoccer plotting, title and endnote are presentation
and not modelled).  Order of effects as in the source: resolve the team
(line 405), validate the kind (407), only then read the heatmap
attribute (411) and decode it (412).  Reading an attribute of a missing
team element raises `AttributeError`; decoding `None` raises
`TypeError` inside the list comprehension. -/
def team_heatmap (st : TracabTf05Xml) (team hm_type : String) :
    Except PyError (List (List Nat)) :=
  match get_team st team with
  | Except.error e => Except.error e
  | Except.ok tq =>
    if hm_type ∈ team_heatmap_keys then
      match tq with
      | none => Except.error PyError.attributeError
      | some t =>
        match t.get (team_heatmap_dict hm_type) with
        | none => Except.error PyError.typeError
        | some s => make_heatmap_array s
    else
      Except.error (PyError.valueError
        (invalidKindMsg "overall, defence, midfield, attack" hm_type))

/-- Models `TracabTf05Xml.team_possession_heatmap` up to the decoded
heatmap array (plotting, titles and the possession-statistics subtitle
added on the overall kind are presentation and not modelled).  Order of
effects as in the source: resolve the team (474), read `PossessionData`
(476, raising `AttributeError` if the team element was `None`), select
the possession side (477-482, raising `AttributeError` when
`PossessionData` is absent, `ValueError` on a bad qualifier), validate
the kind (484-486), only then read the heatmap attribute (487) and
decode (488). -/
def team_possession_heatmap (st : TracabTf05Xml) (team possession hm_type : String) :
    Except PyError (List (List Nat)) :=
  match get_team st team with
  | Except.error e => Except.error e
  | Except.ok none => Except.error PyError.attributeError
  | Except.ok (some t) =>
    let pdRes : Except PyError (Option Elem) :=
      if possession = "in" then
        match t.find "PossessionData" with
        | none => Except.error PyError.attributeError
        | some s => Except.ok (s.find "OwnTeamPossession")
      else if possession = "out" then
        match t.find "PossessionData" with
        | none => Except.error PyError.attributeError
        | some s => Except.ok (s.find "OpponentPossession")
      else Except.error (PyError.valueError (invalidPossessionMsg possession))
    match pdRes with
    | Except.error e => Except.error e
    | Except.ok pd =>
      if hm_type ∈ possession_heatmap_keys then
        match pd with
        | none => Except.error PyError.attributeError
        | some p =>
          match p.get (possession_heatmap_dict hm_type) with
          | none => Except.error PyError.typeError
          | some s => make_heatmap_array s
      else
        Except.error (PyError.valueError
          (invalidKindMsg "overall, first-half, second-half" hm_type))

/-- Models `TracabTf05Xml.player_possession_heatmap` up to the decoded
heatmap array (plotting and titles are presentation and not modelled).
Order of effects as in the source: resolve the player (661), read the
player's `PossessionData` (663), select the possession side (664-669),
validate the kind (671-673), only then read the heatmap attribute (674)
and decode (675). -/
def player_possession_heatmap (st : TracabTf05Xml) (player possession hm_type : String) :
    Except PyError (List (List Nat)) :=
  match get_player st player with
  | Except.error e => Except.error e
  | Except.ok (pl, _) =>
    let pdRes : Except PyError (Option Elem) :=
      if possession = "in" then
        match pl.find "PossessionData" with
        | none => Except.error PyError.attributeError
        | some s => Except.ok (s.find "OwnTeamPossession")
      else if possession = "out" then
        match pl.find "PossessionData" with
        | none => Except.error PyError.attributeError
        | some s => Except.ok (s.find "OpponentPossession")
      else Except.error (PyError.valueError (invalidPossessionMsg possession))
    match pdRes with
    | Except.error e => Except.error e
    | Except.ok pd =>
      if hm_type ∈ possession_heatmap_keys then
        match pd with
        | none => Except.error PyError.attributeError
        | some p =>
          match p.get (possession_heatmap_dict hm_type) with
          | none => Except.error PyError.typeError
          | some s => make_heatmap_array s
      else
        Except.error (PyError.valueError
          (invalidKindMsg "overall, first-half, second-half" hm_type))

/-- The value carried by a successful call, or `none` on an error. -/
def okValue {α : Type} : Except PyError α → Option α
  | Except.ok a => some a
  | Except.error _ => none

/-- Whether a call raised a `ValueError`. -/
def isValueError {α : Type} : Except PyError α → Bool
  | Except.error (PyError.valueError _) => true
  | _ => false

/-- The player component of a `get_player` result (`none` on error). -/
def playerOf (r : Except PyError (Elem × Option String)) : Option Elem :=
  (okValue r).map Prod.fst

/-- The first hit among a sequence of lookup results. -/
def firstSome {α : Type} : List (Option α) → Option α
  | [] => none
  | some x :: _ => some x
  | none :: rest => firstSome rest

/-! ## Lemmas about the heatmap decoder -/

theorem pyIntOfChar_ascii {c : Char} (h1 : 48 ≤ c.toNat) (h2 : c.toNat ≤ 57) :
    pyIntOfChar c = some (c.toNat - 48) := by
  unfold pyIntOfChar ndZeroPoints
  rw [List.find?_cons_of_pos _ (by simp only [Bool.and_eq_true, decide_eq_true_eq]; omega)]
  rfl

theorem pyIntOfChar_le_nine {c : Char} {n : Nat} (h : pyIntOfChar c = some n) :
    n ≤ 9 := by
  unfold pyIntOfChar at h
  cases hf : ndZeroPoints.find? (fun z => decide (z ≤ c.toNat) && decide (c.toNat ≤ z + 9)) with
  | none => rw [hf] at h; cases h
  | some z =>
    rw [hf, Option.map_some'] at h
    have hp := List.find?_some hf
    simp only [Bool.and_eq_true, decide_eq_true_eq] at hp
    injection h with h2
    omega

theorem int_list_ok_of_digits {l : List Char}
    (h : ∀ c ∈ l, 48 ≤ c.toNat ∧ c.toNat ≤ 57) :
    int_list l = Except.ok (l.map (fun c => c.toNat - 48)) := by
  induction l with
  | nil => rfl
  | cons c cs ih =>
    have hc := h c (List.mem_cons_self c cs)
    simp [int_list, pyIntOfChar_ascii hc.1 hc.2,
      ih (fun x hx => h x (List.mem_cons_of_mem c hx))]

theorem int_list_error_of_bad {l : List Char} {c : Char}
    (hc : c ∈ l) (hbad : pyIntOfChar c = none) :
    int_list l = Except.error (PyError.valueError intConvMsg) := by
  induction l with
  | nil => cases hc
  | cons a as ih =>
    rcases List.mem_cons.mp hc with rfl | hmem
    · simp [int_list, hbad]
    · cases ha : pyIntOfChar a with
      | none => simp [int_list, ha]
      | some n => simp [int_list, ha, ih hmem]

theorem int_list_shape (l : List Char) :
    int_list l = Except.error (PyError.valueError intConvMsg) ∨
      ∃ vals, int_list l = Except.ok vals ∧ vals.length = l.length := by
  induction l with
  | nil => exact Or.inr ⟨[], rfl, rfl⟩
  | cons c cs ih =>
    cases hc : pyIntOfChar c with
    | none => exact Or.inl (by simp [int_list, hc])
    | some n =>
      rcases ih with he | ⟨vals, hv, hlen⟩
      · exact Or.inl (by simp [int_list, hc, he])
      · exact Or.inr ⟨n :: vals, by simp [int_list, hc, hv], by simp [hlen]⟩

theorem int_list_vals_le_nine {l : List Char} {vals : List Nat}
    (h : int_list l = Except.ok vals) : ∀ x ∈ vals, x ≤ 9 := by
  induction l generalizing vals with
  | nil =>
    simp only [int_list, Except.ok.injEq] at h
    subst h
    intro x hx
    cases hx
  | cons c cs ih =>
    cases hc : pyIntOfChar c with
    | none => simp [int_list, hc] at h
    | some n =>
      cases hrest : int_list cs with
      | error e => simp [int_list, hc, hrest] at h
      | ok ns =>
        simp only [int_list, hc, hrest, Except.ok.injEq] at h
        subst h
        intro x hx
        rcases List.mem_cons.mp hx with rfl | hx
        · exact pyIntOfChar_le_nine hc
        · exact ih hrest x hx

theorem reshapeRows_length (rows cols : Nat) (vals : List Nat) :
    (reshapeRows rows cols vals).length = rows := by
  induction rows generalizing vals with
  | zero => rfl
  | succ n ih => rw [reshapeRows, List.length_cons, ih]

theorem reshapeRows_row_length {rows cols : Nat} {vals : List Nat}
    (hlen : vals.length = rows * cols) :
    ∀ row ∈ reshapeRows rows cols vals, row.length = cols := by
  induction rows generalizing vals with
  | zero =>
    intro row hrow
    rw [reshapeRows] at hrow
    cases hrow
  | succ n ih =>
    intro row hrow
    rw [reshapeRows] at hrow
    rcases List.mem_cons.mp hrow with rfl | h
    · rw [List.length_take, hlen, Nat.succ_mul]
      exact Nat.min_eq_left (Nat.le_add_left cols (n * cols))
    · exact ih (by rw [List.length_drop, hlen, Nat.succ_mul]; exact Nat.add_sub_cancel (n * cols) cols) row h

theorem reshapeRows_mem {rows cols : Nat} {vals : List Nat} :
    ∀ row ∈ reshapeRows rows cols vals, ∀ x ∈ row, x ∈ vals := by
  induction rows generalizing vals with
  | zero =>
    intro row hrow
    rw [reshapeRows] at hrow
    cases hrow
  | succ n ih =>
    intro row hrow x hx
    rw [reshapeRows] at hrow
    rcases List.mem_cons.mp hrow with rfl | h
    · exact List.mem_of_mem_take hx
    · exact List.mem_of_mem_drop (ih row h x hx)

theorem reshapeRows_getD {rows cols : Nat} {vals : List Nat} {r c : Nat}
    (hlen : vals.length = rows * cols) (hr : r < rows) (hc : c < cols) :
    ((reshapeRows rows cols vals).getD r []).getD c 0 = vals.getD (r * cols + c) 0 := by
  induction rows generalizing vals r with
  | zero => exact (Nat.not_lt_zero r hr).elim
  | succ n ih =>
    cases r with
    | zero =>
      rw [reshapeRows, List.getD_cons_zero, Nat.zero_mul, Nat.zero_add]
      rw [List.getD_eq_getElem?_getD, List.getElem?_take_of_lt hc,
        ← List.getD_eq_getElem?_getD]
    | succ m =>
      rw [reshapeRows, List.getD_cons_succ]
      have hlen2 : (vals.drop cols).length = n * cols := by
        rw [List.length_drop, hlen, Nat.succ_mul]
        exact Nat.add_sub_cancel (n * cols) cols
      rw [ih hlen2 (Nat.lt_of_succ_lt_succ hr)]
      rw [List.getD_eq_getElem?_getD, List.getElem?_drop, ← List.getD_eq_getElem?_getD]
      have hidx : cols + (m * cols + c) = (m + 1) * cols + c := by
        rw [Nat.succ_mul]
        ring
      rw [hidx]

theorem reshapeRows_flatten {rows cols : Nat} {vals : List Nat}
    (hlen : vals.length = rows * cols) :
    (reshapeRows rows cols vals).flatten = vals := by
  induction rows generalizing vals with
  | zero =>
    have h0 : vals = [] := by
      rw [Nat.zero_mul] at hlen
      exact List.length_eq_zero.mp hlen
    subst h0
    rfl
  | succ n ih =>
    rw [reshapeRows, List.flatten_cons,
      ih (by rw [List.length_drop, hlen, Nat.succ_mul]; exact Nat.add_sub_cancel (n * cols) cols),
      List.take_append_drop]

/-! ## Decoder fixtures -/

/-- A 280-character string of the ASCII digit 7. -/
def digitString : String := String.mk (List.replicate 280 '7')

/-- FULLWIDTH DIGIT THREE (code point 65299), a Unicode decimal digit
accepted by the Python builtin int() although it lies outside the ASCII
range 0 to 9. -/
def uniDigit : Char := Char.ofNat 65299

/-- A 280-character string whose last character is a fullwidth digit. -/
def uniDigitString : String := String.mk (List.replicate 279 '0' ++ [uniDigit])

/-- A 280-character string whose first character is a space. -/
def spaceString : String := String.mk (' ' :: List.replicate 279 '0')

/-! ## Claim theorems about the decoder -/

/-- C1: for every string of 280 decimal-digit characters (code points
48-57, i.e. the characters 0 to 9), `__make_heatmap_array` produces a
grid of exactly 14 rows and 20 columns in which, for every row index
`r < 14` and column index `c < 20`, `grid[r][c]` equals the integer
value of the character at position `20*r + c` of the input string
(row-major fill, no axis transformation). -/
theorem make_heatmap_array_rowmajor (s : String)
    (hlen : s.data.length = 280)
    (hdig : ∀ c ∈ s.data, 48 ≤ c.toNat ∧ c.toNat ≤ 57) :
    ∃ g, make_heatmap_array s = Except.ok g ∧ g.length = 14 ∧
      (∀ row ∈ g, row.length = 20) ∧
      ∀ r c, r < 14 → c < 20 →
        (g.getD r []).getD c 0 = (s.data.getD (20 * r + c) '0').toNat - 48 := by
  have hvals := int_list_ok_of_digits hdig
  have hmlen : (s.data.map (fun c => c.toNat - 48)).length = 14 * 20 := by
    rw [List.length_map, hlen]
  refine ⟨reshapeRows 14 20 (s.data.map (fun c => c.toNat - 48)), ?_, ?_, ?_, ?_⟩
  · simp [make_heatmap_array, hvals, hmlen]
  · exact reshapeRows_length 14 20 _
  · exact reshapeRows_row_length hmlen
  · intro r c hr hc
    rw [reshapeRows_getD hmlen hr hc]
    have h20 : 20 * r + c = r * 20 + c := by ring
    rw [h20]
    have hidx : r * 20 + c < s.data.length := by rw [hlen]; omega
    simp only [List.getD_eq_getElem?_getD, List.getElem?_map,
      List.getElem?_eq_getElem hidx]
    simp

set_option maxRecDepth 10000 in
set_option maxHeartbeats 1000000 in
theorem make_heatmap_array_rowmajor_witness :
    digitString.data.length = 280 ∧
      (∀ c ∈ digitString.data, 48 ≤ c.toNat ∧ c.toNat ≤ 57) ∧
      (∃ g, make_heatmap_array digitString = Except.ok g ∧ g.length = 14 ∧
        (∀ row ∈ g, row.length = 20) ∧
        ∀ r c, r < 14 → c < 20 →
          (g.getD r []).getD c 0 = (digitString.data.getD (20 * r + c) '0').toNat - 48) :=
  ⟨by decide, by decide,
    make_heatmap_array_rowmajor digitString (by decide) (by decide)⟩

/-- C8: for every string of 280 decimal-digit characters, flattening the
decoded 14-by-20 grid in row-major order and rendering each cell as its
single decimal digit reproduces the original input string exactly. -/
theorem decode_flatten_roundtrip (s : String)
    (hlen : s.data.length = 280)
    (hdig : ∀ c ∈ s.data, 48 ≤ c.toNat ∧ c.toNat ≤ 57) :
    ∃ g, make_heatmap_array s = Except.ok g ∧
      String.mk (g.flatten.map (fun n => Char.ofNat (48 + n))) = s := by
  have hvals := int_list_ok_of_digits hdig
  have hmlen : (s.data.map (fun c => c.toNat - 48)).length = 14 * 20 := by
    rw [List.length_map, hlen]
  refine ⟨reshapeRows 14 20 (s.data.map (fun c => c.toNat - 48)), ?_, ?_⟩
  · simp [make_heatmap_array, hvals, hmlen]
  · rw [reshapeRows_flatten hmlen, List.map_map]
    have hmap : ∀ c ∈ s.data,
        ((fun n => Char.ofNat (48 + n)) ∘ (fun c => c.toNat - 48)) c = id c := by
      intro c hc
      have h48 := (hdig c hc).1
      have heq : 48 + (c.toNat - 48) = c.toNat := by omega
      simp only [Function.comp_apply, heq, Char.ofNat_toNat, id_eq]
    rw [List.map_congr_left hmap, List.map_id]

set_option maxRecDepth 10000 in
set_option maxHeartbeats 1000000 in
theorem decode_flatten_roundtrip_witness :
    digitString.data.length = 280 ∧
      (∀ c ∈ digitString.data, 48 ≤ c.toNat ∧ c.toNat ≤ 57) ∧
      (∃ g, make_heatmap_array digitString = Except.ok g ∧
        String.mk (g.flatten.map (fun n => Char.ofNat (48 + n))) = digitString) :=
  ⟨by decide, by decide,
    decode_flatten_roundtrip digitString (by decide) (by decide)⟩

/-- C10: whenever `__make_heatmap_array` succeeds, the resulting grid
has exactly 14 rows of exactly 20 cells each and every cell is a natural
number at most 9 (hence an integer between 0 and 9 inclusive). -/
theorem make_heatmap_array_invariants (s : String) (g : List (List Nat))
    (h : make_heatmap_array s = Except.ok g) :
    g.length = 14 ∧ ∀ row ∈ g, row.length = 20 ∧ ∀ x ∈ row, x ≤ 9 := by
  cases hil : int_list s.data with
  | error e => simp [make_heatmap_array, hil] at h
  | ok vals =>
    by_cases hv : vals.length = 14 * 20
    · simp only [make_heatmap_array, hil, if_pos hv, Except.ok.injEq] at h
      subst h
      refine ⟨reshapeRows_length 14 20 vals, ?_⟩
      intro row hrow
      exact ⟨reshapeRows_row_length hv row hrow,
        fun x hx => int_list_vals_le_nine hil x (reshapeRows_mem row hrow x hx)⟩
    · simp [make_heatmap_array, hil, hv] at h

set_option maxRecDepth 10000 in
set_option maxHeartbeats 1000000 in
theorem make_heatmap_array_invariants_witness :
    (reshapeRows 14 20 (List.replicate 280 7)).length = 14 ∧
      ∀ row ∈ reshapeRows 14 20 (List.replicate 280 7), row.length = 20 ∧
        ∀ x ∈ row, x ≤ 9 :=
  make_heatmap_array_invariants digitString
    (reshapeRows 14 20 (List.replicate 280 7)) (by rfl)

/-- C5 (amended): decoding fails with a `ValueError` (the spec's
`FormatError`) for every string whose length is not 280, and for every
string containing a character that the Python builtin int() does not
accept as a decimal digit; but a non-ASCII Unicode decimal digit (a
character outside the range 0 to 9) is accepted by int(), so such a
character does not make decoding fail (see the counterexample). -/
theorem make_heatmap_array_rejects (s t : String) (c : Char)
    (hlen : s.data.length ≠ 280)
    (hc : c ∈ t.data) (hbad : pyIntOfChar c = none) :
    isValueError (make_heatmap_array s) = true ∧
      isValueError (make_heatmap_array t) = true := by
  constructor
  · rcases int_list_shape s.data with he | ⟨vals, hv, hvl⟩
    · simp [make_heatmap_array, he, isValueError]
    · have hne : ¬ vals.length = 14 * 20 := by
        rw [hvl]
        intro h280
        exact hlen (by omega)
      simp [make_heatmap_array, hv, hne, isValueError]
  · simp [make_heatmap_array, int_list_error_of_bad hc hbad, isValueError]

set_option maxRecDepth 10000 in
set_option maxHeartbeats 1000000 in
theorem make_heatmap_array_rejects_witness :
    ("abc" : String).data.length ≠ 280 ∧ ' ' ∈ spaceString.data ∧
      pyIntOfChar ' ' = none ∧
      (isValueError (make_heatmap_array "abc") = true ∧
        isValueError (make_heatmap_array spaceString) = true) :=
  ⟨by decide, by decide, by decide,
    make_heatmap_array_rejects "abc" spaceString ' ' (by decide) (by decide) (by decide)⟩

set_option maxRecDepth 10000 in
set_option maxHeartbeats 1000000 in
theorem make_heatmap_array_unicode_digit_cex :
    uniDigitString.data.length = 280 ∧
      uniDigit ∈ uniDigitString.data ∧
      ¬ (48 ≤ uniDigit.toNat ∧ uniDigit.toNat ≤ 57) ∧
      (okValue (make_heatmap_array uniDigitString)).isSome = true ∧
      (((okValue (make_heatmap_array uniDigitString)).getD []).getD 13 []).getD 19 0 = 3 :=
  ⟨by decide, by decide, by decide, by decide, by decide⟩

/-! ## Document fixtures

A small TF05 document: a home team with a player whose id is 77, an away
team with a player whose name is the string 77 (the disambiguation
fixture named by the spec) and a further away player named Zed who can
only be found by name. -/

/-- The TracabDocument metadata element of the fixture. -/
def tdocEx : Elem :=
  Elem.mk "TracabDocument"
    [("iMatchId", "m1"), ("sHomeTeamName", "HomeFC"), ("iHomeTeamId", "10"),
     ("sAwayTeamName", "AwayFC"), ("iAwayTeamId", "20"),
     ("iTotalGameTime", "5400000"), ("sArenaName", "Arena"), ("iArenaId", "1"),
     ("sCompetitionName", "Cup"), ("iCompetitionId", "2"),
     ("dtDate", "2020-01-01"), ("sSeason", "2020"), ("iSeasonId", "3"),
     ("iSportId", "4"), ("sSportName", "Soccer")] []

/-- A possession-data element with both possession sides present. -/
def possDataEx : Elem :=
  Elem.mk "PossessionData"
    [("iAvgTimePerPossession", "20000"), ("fPossessionPercentage", "55")]
    [Elem.mk "OwnTeamPossession" [("sHeatmap", "000")] [],
     Elem.mk "OpponentPossession" [("sHeatmap", "000")] []]

/-- Home player with id 77. -/
def p77home : Elem :=
  Elem.mk "Player"
    [("iPlayerId", "77"), ("sPlayerName", "Alice"), ("iJersey", "7")]
    [possDataEx]

/-- Away player whose name is the string 77. -/
def p77away : Elem :=
  Elem.mk "Player"
    [("iPlayerId", "9"), ("sPlayerName", "77"), ("iJersey", "9")]
    [possDataEx]

/-- Away player only findable by name. -/
def zedPlayer : Elem :=
  Elem.mk "Player"
    [("iPlayerId", "5"), ("sPlayerName", "Zed"), ("iJersey", "5")]
    [possDataEx]

/-- The home team element of the fixture. -/
def homeTeamEx : Elem :=
  Elem.mk "HomeTeam" [("sTeamName", "HomeFC")] [possDataEx, p77home]

/-- The away team element of the fixture. -/
def awayTeamEx : Elem :=
  Elem.mk "AwayTeam" [("sTeamName", "AwayFC")] [possDataEx, p77away, zedPlayer]

/-- The root of the fixture document tree. -/
def rootEx : Elem := Elem.mk "root" [] [tdocEx, homeTeamEx, awayTeamEx]

/-- The fixture state after parsing. -/
def stEx : TracabTf05Xml :=
  { root := rootEx
    match_id := some "m1"
    home_team_name := some "HomeFC"
    home_team_id := some "10"
    away_team_name := some "AwayFC"
    away_team_id := some "20"
    match_duration := 90
    arena_name := some "Arena"
    arena_id := some "1"
    competition_name := some "Cup"
    competition_id := some "2"
    match_date := some "2020-01-01"
    season := some "2020"
    season_id := some "3"
    sport_id := some "4"
    sport_name := some "Soccer" }

/-- An adversarial document whose home team is literally named away. -/
def homeTeam9 : Elem := Elem.mk "HomeTeam" [("sTeamName", "away")] []

/-- The away team of the adversarial document. -/
def awayTeam9 : Elem := Elem.mk "AwayTeam" [("sTeamName", "Blues")] []

/-- The root of the adversarial document. -/
def root9 : Elem := Elem.mk "root" [] [homeTeam9, awayTeam9]

/-- The adversarial state: the parsed home team name is the string
away. -/
def st9 : TracabTf05Xml :=
  { root := root9
    match_id := none
    home_team_name := some "away"
    home_team_id := none
    away_team_name := some "Blues"
    away_team_id := none
    match_duration := 90
    arena_name := none
    arena_id := none
    competition_name := none
    competition_id := none
    match_date := none
    season := none
    season_id := none
    sport_id := none
    sport_name := none }

/-- The tag of the team element a `get_team` result carries, if any. -/
def teamTag (r : Except PyError (Option Elem)) : Option String :=
  match r with
  | Except.ok (some e) => some e.tag
  | _ => none

/-! ## Claim theorems about the document model -/

/-- C2: for every player selector (already coerced to a string),
`get_player` tries exactly four lookups in order: id in the home team,
id in the away team, name in the home team, name in the away team, and
the resolved player is the first match found.  (The accompanying witness
instantiates the spec fixture: home id 77 versus away name 77, resolved
to the home player.) -/
theorem get_player_resolution_order (st : TracabTf05Xml) (p : String)
    (h a : Elem)
    (hh : st.root.find "HomeTeam" = some h)
    (ha : st.root.find "AwayTeam" = some a) :
    playerOf (get_player st p) =
      firstSome [h.findByAttr "Player" "iPlayerId" p,
        a.findByAttr "Player" "iPlayerId" p,
        h.findByAttr "Player" "sPlayerName" p,
        a.findByAttr "Player" "sPlayerName" p] := by
  cases h1 : h.findByAttr "Player" "iPlayerId" p with
  | some x => simp [get_player, playerOf, okValue, firstSome, hh, ha, h1]
  | none =>
    cases h2 : a.findByAttr "Player" "iPlayerId" p with
    | some x => simp [get_player, playerOf, okValue, firstSome, hh, ha, h1, h2]
    | none =>
      cases h3 : h.findByAttr "Player" "sPlayerName" p with
      | some x => simp [get_player, playerOf, okValue, firstSome, hh, ha, h1, h2, h3]
      | none =>
        cases h4 : a.findByAttr "Player" "sPlayerName" p with
        | some x => simp [get_player, playerOf, okValue, firstSome, hh, ha, h1, h2, h3, h4]
        | none => simp [get_player, playerOf, okValue, firstSome, hh, ha, h1, h2, h3, h4]

theorem get_player_resolution_order_witness :
    (playerOf (get_player stEx "77") =
      firstSome [homeTeamEx.findByAttr "Player" "iPlayerId" "77",
        awayTeamEx.findByAttr "Player" "iPlayerId" "77",
        homeTeamEx.findByAttr "Player" "sPlayerName" "77",
        awayTeamEx.findByAttr "Player" "sPlayerName" "77"]) ∧
      playerOf (get_player stEx "77") = some p77home :=
  ⟨get_player_resolution_order stEx "77" homeTeamEx awayTeamEx rfl rfl, rfl⟩

/-- C3 (code evaluated at the failing input): resolving the player Zed,
who is only found by exact name match within the away team, returns
`None` as the owning team name even though the away team element carries
`sTeamName = AwayFC`, because the source reads the misspelled attribute
`sTamName` on that path. -/
theorem get_player_away_name_typo_eval :
    awayTeamEx.get "sTeamName" = some "AwayFC" ∧
      get_player stEx "Zed" = Except.ok (zedPlayer, none) :=
  ⟨rfl, rfl⟩

/-- C4: `get_team` rejects every selector that is neither a role tag nor
an exact team name with a `ValueError` (the spec's `NotFoundError`)
whose message begins with Invalid team argument, returning no partial
result.  The precedence is stated through the three positive conjuncts:
the role tags resolve regardless of the team names, a non-role selector
equal to the home name resolves to the home team even when it also
equals the away name, and a non-role selector matching only the away
name resolves to the away team.  The message prefix is stated over the
character data. -/
theorem get_team_invalid_rejected (st : TracabTf05Xml) (team nm nm2 : String)
    (h1 : team ≠ "home") (h2 : team ≠ "away")
    (h3 : some team ≠ st.home_team_name) (h4 : some team ≠ st.away_team_name)
    (h5 : nm ≠ "home") (h6 : nm ≠ "away") (h7 : some nm = st.home_team_name)
    (h8 : nm2 ≠ "home") (h9 : nm2 ≠ "away")
    (h10 : some nm2 ≠ st.home_team_name) (h11 : some nm2 = st.away_team_name) :
    get_team st "home" = Except.ok (st.root.find "HomeTeam") ∧
      get_team st "away" = Except.ok (st.root.find "AwayTeam") ∧
      get_team st nm = Except.ok (st.root.find "HomeTeam") ∧
      get_team st nm2 = Except.ok (st.root.find "AwayTeam") ∧
      get_team st team = Except.error (PyError.valueError invalidTeamMsg) ∧
      ("Invalid team argument".data.isPrefixOf invalidTeamMsg.data) = true := by
  refine ⟨rfl, rfl, ?_, ?_, ?_, by decide⟩
  · unfold get_team
    rw [if_neg (by simp [h5, h6]), if_pos h7]
  · unfold get_team
    rw [if_neg (by simp [h8, h9]), if_neg h10, if_pos h11]
  · unfold get_team
    rw [if_neg (by simp [h1, h2]), if_neg h3, if_neg h4]

theorem get_team_invalid_rejected_witness :
    ("visitors" ≠ "home" ∧ some "visitors" ≠ stEx.home_team_name ∧
        some "HomeFC" = stEx.home_team_name ∧ some "AwayFC" = stEx.away_team_name) ∧
      (get_team stEx "home" = Except.ok (stEx.root.find "HomeTeam") ∧
        get_team stEx "away" = Except.ok (stEx.root.find "AwayTeam") ∧
        get_team stEx "HomeFC" = Except.ok (stEx.root.find "HomeTeam") ∧
        get_team stEx "AwayFC" = Except.ok (stEx.root.find "AwayTeam") ∧
        get_team stEx "visitors" = Except.error (PyError.valueError invalidTeamMsg) ∧
        ("Invalid team argument".data.isPrefixOf invalidTeamMsg.data) = true) :=
  ⟨⟨by decide, by decide, by decide, by decide⟩,
    get_team_invalid_rejected stEx "visitors" "HomeFC" "AwayFC"
      (by decide) (by decide) (by decide) (by decide)
      (by decide) (by decide) (by decide)
      (by decide) (by decide) (by decide) (by decide)⟩

/-- C9 counterexample: on a parsed document whose home team is literally
named away, resolving by the role tag home and resolving by the exact
home-team name (the string away) return different entities, refuting the
claim as stated. -/
theorem get_team_role_name_cex :
    st9.home_team_name = some "away" ∧
      teamTag (get_team st9 "home") = some "HomeTeam" ∧
      teamTag (get_team st9 "away") = some "AwayTeam" ∧
      get_team st9 "home" ≠ get_team st9 "away" :=
  ⟨rfl, rfl, rfl, fun h => absurd (congrArg teamTag h) (by decide)⟩

/-- C9 (amended): resolving by role and by exact name return the
identical entity provided the team names do not collide with the role
tags or with each other: the home side needs the home name to differ
from the string away, the away side needs the away name to differ from
the string home and from the home name (role tags and the home name are
matched first, so those collisions redirect the lookup). -/
theorem get_team_role_name_agree (st : TracabTf05Xml) (hn an : String)
    (hh : st.home_team_name = some hn) (hha : st.away_team_name = some an)
    (h1 : hn ≠ "away") (h2 : an ≠ "home") (h3 : an ≠ hn) :
    get_team st "home" = get_team st hn ∧ get_team st "away" = get_team st an := by
  constructor
  · by_cases hcase : hn = "home"
    · subst hcase; rfl
    · simp [get_team, hcase, h1, hh, team_dict]
  · by_cases hcase : an = "away"
    · subst hcase; rfl
    · simp [get_team, hcase, h2, hh, hha, h3, team_dict]

theorem get_team_role_name_agree_witness :
    (stEx.home_team_name = some "HomeFC" ∧ stEx.away_team_name = some "AwayFC") ∧
      (get_team stEx "home" = get_team stEx "HomeFC" ∧
        get_team stEx "away" = get_team stEx "AwayFC") :=
  ⟨⟨rfl, rfl⟩,
    get_team_role_name_agree stEx "HomeFC" "AwayFC" rfl rfl
      (by decide) (by decide) (by decide)⟩

/-- C6: for every requested heatmap kind outside the closed enumeration,
`team_heatmap`, `team_possession_heatmap` and `player_possession_heatmap`
fail with a `ValueError` (the spec's `InvalidKindError`) whose message
lists exactly the valid kinds for that entity category, and they do so
before the heatmap attribute is looked up: the error does not depend on
which heatmap attributes the entity carries, so an invalid kind never
yields an empty or `None` grid. -/
theorem invalid_kind_rejected (st : TracabTf05Xml)
    (team player possession k : String) (t s pl ps : Elem) (tn : Option String)
    (h1 : get_team st team = Except.ok (some t))
    (h2 : t.find "PossessionData" = some s)
    (h3 : possession = "in" ∨ possession = "out")
    (h4 : k ∉ team_heatmap_keys)
    (h5 : k ∉ possession_heatmap_keys)
    (h6 : get_player st player = Except.ok (pl, tn))
    (h7 : pl.find "PossessionData" = some ps) :
    team_heatmap st team k = Except.error (PyError.valueError
        ("Invalid heatmap type: must be one of (overall, defence, midfield, attack), but provided " ++ k)) ∧
      team_possession_heatmap st team possession k = Except.error (PyError.valueError
        ("Invalid heatmap type: must be one of (overall, first-half, second-half), but provided " ++ k)) ∧
      player_possession_heatmap st player possession k = Except.error (PyError.valueError
        ("Invalid heatmap type: must be one of (overall, first-half, second-half), but provided " ++ k)) := by
  have hmsg1 : invalidKindMsg "overall, defence, midfield, attack" k =
      "Invalid heatmap type: must be one of (overall, defence, midfield, attack), but provided " ++ k := by
    unfold invalidKindMsg
    congr 1
  have hmsg2 : invalidKindMsg "overall, first-half, second-half" k =
      "Invalid heatmap type: must be one of (overall, first-half, second-half), but provided " ++ k := by
    unfold invalidKindMsg
    congr 1
  refine ⟨?_, ?_, ?_⟩
  · rw [← hmsg1]
    simp [team_heatmap, h1, h4]
  · rw [← hmsg2]
    rcases h3 with rfl | rfl
    · simp [team_possession_heatmap, h1, h2, h5]
    · simp [team_possession_heatmap, h1, h2, h5]
  · rw [← hmsg2]
    rcases h3 with rfl | rfl
    · simp [player_possession_heatmap, h6, h7, h5]
    · simp [player_possession_heatmap, h6, h7, h5]

theorem invalid_kind_rejected_witness :
    (get_team stEx "home" = Except.ok (some homeTeamEx) ∧
        "unknown" ∉ team_heatmap_keys ∧ "unknown" ∉ possession_heatmap_keys) ∧
      (team_heatmap stEx "home" "unknown" = Except.error (PyError.valueError
          ("Invalid heatmap type: must be one of (overall, defence, midfield, attack), but provided " ++ "unknown")) ∧
        team_possession_heatmap stEx "home" "in" "unknown" = Except.error (PyError.valueError
          ("Invalid heatmap type: must be one of (overall, first-half, second-half), but provided " ++ "unknown")) ∧
        player_possession_heatmap stEx "77" "in" "unknown" = Except.error (PyError.valueError
          ("Invalid heatmap type: must be one of (overall, first-half, second-half), but provided " ++ "unknown"))) :=
  ⟨⟨rfl, by decide, by decide⟩,
    invalid_kind_rejected stEx "home" "77" "in" "unknown"
      homeTeamEx possDataEx p77home possDataEx (some "HomeFC")
      rfl rfl (Or.inl rfl) (by decide) (by decide) rfl rfl⟩

/-- C7 counterexample: a document whose TracabDocument element carries
`iTotalGameTime` but no `sHomeTeamName` parses successfully, yielding
metadata whose home-team-name field is `None` rather than failing with
the spec's `SchemaError`. -/
def tdoc7 : Elem :=
  Elem.mk "TracabDocument" [("iMatchId", "m7"), ("iTotalGameTime", "5400000")] []

/-- Root of the attribute-poor document. -/
def root7 : Elem := Elem.mk "root" [] [tdoc7]

/-- C7 counterexample theorem: parsing succeeds although a required
top-level attribute is absent; the missing field is `None` and the
duration is still 5400000 divided by 60000, i.e. 90 minutes. -/
theorem parse_missing_attr_cex :
    tdoc7.get "sHomeTeamName" = none ∧
      (okValue (parse root7)).isSome = true ∧
      (okValue (parse root7)).map TracabTf05Xml.home_team_name = some none ∧
      (okValue (parse root7)).map TracabTf05Xml.match_duration = some 90 :=
  ⟨rfl, rfl, rfl, by
    have h : (okValue (parse root7)).map TracabTf05Xml.match_duration =
        some ((5400000 : Rat) / 60000) := rfl
    rw [h]
    norm_num⟩

/-- C7 (amended): whenever the TracabDocument element is present and its
`iTotalGameTime` attribute parses as a number, `parse` succeeds and
returns metadata populated field by field from the element's attributes
(an absent attribute yields an empty, `None`-valued field rather than an
error), with the duration derived as the raw `iTotalGameTime`
milliseconds divided by 60000. -/
theorem parse_populates (root mi : Elem) (tstr : String) (q : Rat)
    (hfind : root.find "TracabDocument" = some mi)
    (ht : mi.get "iTotalGameTime" = some tstr)
    (hq : pyFloatParse tstr = some q) :
    parse root = Except.ok
      { root := root
        match_id := mi.get "iMatchId"
        home_team_name := mi.get "sHomeTeamName"
        home_team_id := mi.get "iHomeTeamId"
        away_team_name := mi.get "sAwayTeamName"
        away_team_id := mi.get "iAwayTeamId"
        match_duration := q / 60000
        arena_name := mi.get "sArenaName"
        arena_id := mi.get "iArenaId"
        competition_name := mi.get "sCompetitionName"
        competition_id := mi.get "iCompetitionId"
        match_date := mi.get "dtDate"
        season := mi.get "sSeason"
        season_id := mi.get "iSeasonId"
        sport_id := mi.get "iSportId"
        sport_name := mi.get "sSportName" } := by
  simp [parse, hfind, pyFloat, ht, hq]

theorem parse_populates_witness :
    (rootEx.find "TracabDocument" = some tdocEx ∧
        tdocEx.get "iTotalGameTime" = some "5400000" ∧
        pyFloatParse "5400000" = some 5400000) ∧
      parse rootEx = Except.ok
        { root := rootEx
          match_id := tdocEx.get "iMatchId"
          home_team_name := tdocEx.get "sHomeTeamName"
          home_team_id := tdocEx.get "iHomeTeamId"
          away_team_name := tdocEx.get "sAwayTeamName"
          away_team_id := tdocEx.get "iAwayTeamId"
          match_duration := 5400000 / 60000
          arena_name := tdocEx.get "sArenaName"
          arena_id := tdocEx.get "iArenaId"
          competition_name := tdocEx.get "sCompetitionName"
          competition_id := tdocEx.get "iCompetitionId"
          match_date := tdocEx.get "dtDate"
          season := tdocEx.get "sSeason"
          season_id := tdocEx.get "iSeasonId"
          sport_id := tdocEx.get "iSportId"
          sport_name := tdocEx.get "sSportName" } :=
  ⟨⟨rfl, rfl, by decide⟩,
    parse_populates rootEx tdocEx "5400000" 5400000 rfl rfl (by decide)⟩

end Tfutils
